import Mathlib

/-!
Verification of the `account_monthly_balance_generation` Airflow DAG
(src/dags/account_monthly_balance_generation/account_monthly_balance_generation.py).

The DAG wires four tasks into a linear chain:
`create_table_snowflake >> load_to_s3 >> generate_presigned_url >> notify_slack`.
We embed the run configuration (`PARAMS_DEFINITION`), the two SQL operators,
the pre-signed-URL task and the Slack notifier as explicit records, and model
one run of the chain as a sequential executor that attempts each task only
after every earlier task in the chain has succeeded.
-/

namespace AccountMonthlyBalance

/-- The run configuration is a Python dict of string parameters. -/
abbrev Params := List (String × String)

/-- Python dict subscript access `params[k]` (every key used by the DAG is
present in `PARAMS_DEFINITION`, so the default is never reached there). -/
def pyGet (m : Params) (k : String) : String := (m.lookup k).getD ""

/-- `PARAMS_DEFINITION` from the source, lines 45-57.  `dagDirname` stands for
`os.path.dirname(__file__)`, which is only known at deployment time; the two
`os.path.join` calls are rendered as `/`-joins. -/
def PARAMS_DEFINITION (dagDirname : String) : Params :=
  [("snowflake_conn_id", "snowflake_conn_id"),
   ("aws_conn_id", "aws_conn_id"),
   ("queries_base_path", dagDirname ++ "/queries"),
   ("db", "NU_CO_DEV_BUSINESS"),
   ("schema_origin", "POSTGRES_RDS_PUBLIC"),
   ("schema_destination", "FINANCE_SILVER_TABLES"),
   ("stage", "@NU_CO_DEV_BUSINESS.POSTGRES_RDS_PUBLIC.S3_STAGE_STUDY_CASE"),
   ("path", "output_files"),
   ("bucket_s3", "terraform-nu-db-pg-48baa6b7"),
   ("filename", "account_monthly_balance.csv"),
   ("files_dir", "/tmp/balance")]

/-- An Airflow connection as consumed by `generate_presigned_url`:
`conn.login`, `conn.password` and `conn.extra_dejson`. -/
structure Connection where
  login : String
  password : String
  extra_dejson : List (String × String)
deriving DecidableEq

/-- The `boto3.Session(...)` constructed at lines 90-94. -/
structure Boto3Session where
  aws_access_key_id : String
  aws_secret_access_key : String
  region_name : String
deriving DecidableEq

/-- The `session.client("s3", region_name="us-east-1")` of line 96: the
session it came from, plus the region the client itself was created with. -/
structure S3Client where
  session : Boto3Session
  client_region_name : String
deriving DecidableEq

/-- The signing request issued by `s3.generate_presigned_url(...)`,
lines 98-102: which client signs, the client method, and its parameters. -/
structure PresignedUrlRequest where
  client : S3Client
  ClientMethod : String
  bucket : String
  key : String
  ExpiresIn : Nat
deriving DecidableEq

/-- The task body of `generate_presigned_url`, lines 86-104.  `connections`
is the Airflow connection registry behind `BaseHook.get_connection`; the
AWS connection id is read from the run configuration (`PARAMS_DEFINITION`
in the source, the `params` argument here). -/
def generate_presigned_url (connections : String → Connection) (params : Params)
    (bucket_name : String) (object_key : String) (expires_in_sec : Nat) :
    PresignedUrlRequest :=
  let conn := connections (pyGet params "aws_conn_id")
  let extras := conn.extra_dejson
  let session : Boto3Session :=
    { aws_access_key_id := conn.login
      aws_secret_access_key := conn.password
      region_name := (extras.lookup "region_name").getD "us-east-1" }
  let s3 : S3Client := { session := session, client_region_name := "us-east-1" }
  { client := s3
    ClientMethod := "get_object"
    bucket := bucket_name
    key := object_key
    ExpiresIn := expires_in_sec }

/-- The `SlackWebhookOperator(...)` built and executed by `notify_slack`,
lines 106-113. -/
structure SlackWebhookOperatorSpec where
  task_id : String
  slack_webhook_conn_id : String
  message : String
  username : String
deriving DecidableEq

/-- The task body of `notify_slack`, lines 106-113. -/
def notify_slack (url : String) : SlackWebhookOperatorSpec :=
  { task_id := "send_slack_message"
    slack_webhook_conn_id := "slack_webhook_conn"
    message := "✅ CSV file for monthly account balance is available at:\n" ++ url
    username := "airflow-bot" }

/-- A `SQLExecuteQueryOperator(...)` as instantiated at lines 71-83. -/
structure SQLExecuteQueryOperatorSpec where
  task_id : String
  sql : String
  conn_id : String
  params : Params
deriving DecidableEq

/-- The four task nodes of the DAG. -/
inductive TaskId where
  | create_table_snowflake
  | load_to_s3
  | generate_presigned_url_task
  | notify_slack_task
deriving DecidableEq, Repr

/-- The DAG as declared by `account_monthly_balance_generation()`:
its default retry count (from `default_args`, line 65), the two SQL
operators, the literal arguments of the `generate_presigned_url` call
(lines 117-121), the notifier, and the dependency edges declared by the
`>>` statements at lines 115 and 123. -/
structure DagModel where
  default_retries : Nat
  create_table_snowflake : SQLExecuteQueryOperatorSpec
  load_to_s3 : SQLExecuteQueryOperatorSpec
  presigned_bucket : String
  presigned_key : String
  presigned_expires : Nat
  notify : String → SlackWebhookOperatorSpec
  dependencies : List (TaskId × TaskId)

/-- The DAG factory `account_monthly_balance_generation`, lines 59-123,
with its reads of the module-level `PARAMS_DEFINITION` made explicit as
the `params` argument. -/
def buildDag (params : Params) : DagModel :=
  { default_retries := 3
    create_table_snowflake :=
      { task_id := "create_table_snowflake"
        sql := "create_table_snowflake.sql"
        conn_id := pyGet params "snowflake_conn_id"
        params := params }
    load_to_s3 :=
      { task_id := "load_to_s3"
        sql := "load_to_s3.sql"
        conn_id := pyGet params "snowflake_conn_id"
        params := params }
    presigned_bucket := pyGet params "bucket_s3"
    presigned_key := pyGet params "path" ++ "/" ++ pyGet params "filename"
    presigned_expires := 604800
    notify := notify_slack
    dependencies :=
      [(TaskId.create_table_snowflake, TaskId.load_to_s3),
       (TaskId.load_to_s3, TaskId.generate_presigned_url_task),
       (TaskId.generate_presigned_url_task, TaskId.notify_slack_task)] }

/-- The unique topological order of the dependency chain: the order in
which the orchestration engine runs the four tasks. -/
def taskChain : List TaskId :=
  [TaskId.create_table_snowflake, TaskId.load_to_s3,
   TaskId.generate_presigned_url_task, TaskId.notify_slack_task]

/-- Sequential executor over a linear chain: attempt each task in order and
record its outcome; stop as soon as one fails (Airflow never schedules a
task whose upstream did not succeed). -/
def runSeq (succeeds : TaskId → Bool) : List TaskId → List (TaskId × Bool)
  | [] => []
  | t :: ts => (t, succeeds t) :: (if succeeds t then runSeq succeeds ts else [])

/-- One run of the DAG: the trace of (task, outcome) pairs. -/
def runChain (succeeds : TaskId → Bool) : List (TaskId × Bool) :=
  runSeq succeeds taskChain

/-- The tasks that were actually invoked during a run. -/
def attempted (succeeds : TaskId → Bool) : List TaskId :=
  (runChain succeeds).map Prod.fst

/-- The run as a whole is marked failed when some attempted task failed. -/
def runFailed (succeeds : TaskId → Bool) : Bool :=
  (runChain succeeds).any (fun p => !p.2)

/-- No task of the DAG writes to the run configuration: each task body only
reads `PARAMS_DEFINITION`, so its effect on the configuration is the
identity. -/
def stepConfigEffect (_t : TaskId) (p : Params) : Params := p

/-- The run configuration after threading it through every task executed in
one run. -/
def paramsAfterRun (succeeds : TaskId → Bool) (p : Params) : Params :=
  (runChain succeeds).foldl (fun acc pr => stepConfigEffect pr.1 acc) p

/-- The Slack messages posted during one run: exactly one message — the
notifier's message for the pre-signed URL of the run — when the
`notify_slack` task executes successfully, none otherwise.  `sign` stands
for the object store turning a signing request into a URL string. -/
def runMessages (connections : String → Connection) (params : Params)
    (sign : PresignedUrlRequest → String) (succeeds : TaskId → Bool) :
    List String :=
  let d := buildDag params
  let url := sign (generate_presigned_url connections params
    d.presigned_bucket d.presigned_key d.presigned_expires)
  if (runChain succeeds).contains (TaskId.notify_slack_task, true) then
    [(notify_slack url).message]
  else []

/-- The Slack messages accumulated after `n` complete re-runs of the
workflow: each run posts its messages with no deduplication against
earlier runs. -/
def historyAfterRuns (connections : String → Connection) (params : Params)
    (sign : PresignedUrlRequest → String) (succeeds : TaskId → Bool) :
    Nat → List String
  | 0 => []
  | n + 1 => historyAfterRuns connections params sign succeeds n ++
      runMessages connections params sign succeeds

/-- The region a connection yields, in the spec's words ("yielding an access
key/secret and a region"): the `region_name` of its extra fields, with the
library default `us-east-1` when absent.  Used only to compare the spec's
claim about the signing region with what the code does. -/
def specConnectionRegion (conn : Connection) : String :=
  (conn.extra_dejson.lookup "region_name").getD "us-east-1"

/-- A concrete AWS connection whose extras carry a non-default region. -/
def euConn : Connection :=
  { login := "AKIAEXAMPLE"
    password := "secretExample"
    extra_dejson := [("region_name", "eu-west-1")] }

/-- A concrete AWS connection with no `region_name` extra. -/
def bareConn : Connection :=
  { login := "AKIAEXAMPLE"
    password := "secretExample"
    extra_dejson := [] }

/-- No task of the DAG passes a `retries` argument of its own: the
per-task retry override is absent for every task, so the `default_args`
value applies uniformly. -/
def taskRetriesOverride (_t : TaskId) : Option Nat := none

/-- The position of each task in the dependency chain. -/
def chainIdx : TaskId → Nat
  | TaskId.create_table_snowflake => 0
  | TaskId.load_to_s3 => 1
  | TaskId.generate_presigned_url_task => 2
  | TaskId.notify_slack_task => 3

/-- The tasks attempted by the sequential executor are an in-order initial
segment of the chain it runs. -/
theorem runSeq_attempted_le (succeeds : TaskId → Bool) :
    ∀ l : List TaskId, ((runSeq succeeds l).map Prod.fst) <+: l := by
  intro l
  induction l with
  | nil => simp [runSeq]
  | cons t ts ih =>
    by_cases h : succeeds t
    · obtain ⟨r, hr⟩ := ih
      exact ⟨r, by simp [runSeq, h, hr]⟩
    · exact ⟨ts, by simp [runSeq, h]⟩

/-- Threading the configuration through any trace leaves it unchanged,
since every task's effect on it is the identity. -/
theorem foldl_stepConfigEffect (l : List (TaskId × Bool)) (p : Params) :
    l.foldl (fun acc pr => stepConfigEffect pr.1 acc) p = p := by
  induction l generalizing p with
  | nil => rfl
  | cons x xs ih => simp [stepConfigEffect, ih p]

/-- Claim C1: the DAG's dependency edges are exactly the linear chain
Provisioner → Loader → Link Generator → Notifier; a run attempts the tasks
one at a time as an in-order initial segment of that chain (a fully
successful run attempts all four in order); and whenever the Data Loader is
invoked, the Table Provisioner was invoked before it and reported
success. -/
theorem dag_strictly_sequential (params : Params) (succeeds : TaskId → Bool)
    (h : TaskId.load_to_s3 ∈ attempted succeeds) :
    (buildDag params).dependencies =
      [(TaskId.create_table_snowflake, TaskId.load_to_s3),
       (TaskId.load_to_s3, TaskId.generate_presigned_url_task),
       (TaskId.generate_presigned_url_task, TaskId.notify_slack_task)] ∧
    attempted succeeds <+: taskChain ∧
    attempted (fun _ => true) = taskChain ∧
    succeeds TaskId.create_table_snowflake = true ∧
    TaskId.create_table_snowflake ∈ attempted succeeds := by
  refine ⟨rfl, runSeq_attempted_le succeeds taskChain, rfl, ?_, ?_⟩
  · by_cases hc : succeeds TaskId.create_table_snowflake
    · exact hc
    · simp [attempted, runChain, runSeq, taskChain, hc] at h
  · simp [attempted, runChain, runSeq, taskChain]

/-- Witness for C1: in a fully successful run the Data Loader is attempted,
and the theorem's conclusions hold there. -/
theorem dag_strictly_sequential_witness :
    TaskId.load_to_s3 ∈ attempted (fun _ => true) ∧
    ((buildDag (PARAMS_DEFINITION "/opt/airflow/dags")).dependencies =
      [(TaskId.create_table_snowflake, TaskId.load_to_s3),
       (TaskId.load_to_s3, TaskId.generate_presigned_url_task),
       (TaskId.generate_presigned_url_task, TaskId.notify_slack_task)] ∧
     attempted (fun _ => true) <+: taskChain ∧
     attempted (fun _ => true) = taskChain ∧
     (fun _ : TaskId => true) TaskId.create_table_snowflake = true ∧
     TaskId.create_table_snowflake ∈ attempted (fun _ => true)) :=
  ⟨by decide,
   dag_strictly_sequential (PARAMS_DEFINITION "/opt/airflow/dags")
     (fun _ => true) (by decide)⟩

/-- Each task's `chainIdx` is its index in `taskChain`. -/
theorem indexOf_taskChain_eq_chainIdx (t : TaskId) :
    taskChain.indexOf t = chainIdx t := by
  cases t <;> rfl

/-- Claim C2: if any step fails, no step strictly later in the chain is
ever invoked, and the run as a whole is marked failed.  In particular,
when the Data Loader fails (for instance because the warehouse connection
is invalid), the Link Generator and the Notifier never execute — take
`t := load_to_s3` and `u := generate_presigned_url_task` or
`u := notify_slack_task`. -/
theorem failure_halts_chain (succeeds : TaskId → Bool) (t u : TaskId)
    (hfail : succeeds t = false)
    (horder : taskChain.indexOf t < taskChain.indexOf u) :
    u ∉ attempted succeeds ∧ runFailed succeeds = true := by
  rw [indexOf_taskChain_eq_chainIdx t, indexOf_taskChain_eq_chainIdx u]
    at horder
  cases h1 : succeeds TaskId.create_table_snowflake <;>
    cases h2 : succeeds TaskId.load_to_s3 <;>
    cases h3 : succeeds TaskId.generate_presigned_url_task <;>
    cases h4 : succeeds TaskId.notify_slack_task <;>
    cases t <;> cases u <;>
    simp_all [attempted, runChain, runSeq, runFailed, taskChain, chainIdx]

/-- Witness for C2: with the Table Provisioner succeeding and the Data
Loader failing, the Loader indeed fails and comes before the Link
Generator in the chain, and the Link Generator is never invoked while the
run is marked failed. -/
theorem failure_halts_chain_witness :
    (fun x : TaskId => x == TaskId.create_table_snowflake)
        TaskId.load_to_s3 = false ∧
    taskChain.indexOf TaskId.load_to_s3 <
      taskChain.indexOf TaskId.generate_presigned_url_task ∧
    (TaskId.generate_presigned_url_task ∉
        attempted (fun x => x == TaskId.create_table_snowflake) ∧
      runFailed (fun x => x == TaskId.create_table_snowflake) = true) :=
  ⟨by decide, by decide,
   failure_halts_chain (fun x => x == TaskId.create_table_snowflake)
     TaskId.load_to_s3 TaskId.generate_presigned_url_task
     (by decide) (by decide)⟩

/-- Claim C3: under the reference configuration the Link Generator is
invoked with bucket `terraform-nu-db-pg-48baa6b7`, object key
`path ++ "/" ++ filename = "output_files/account_monthly_balance.csv"` and
expiration 604800 seconds, and the signing request it issues is for a
single `get_object` operation on exactly that bucket/key pair with exactly
that expiration. -/
theorem presigned_call_reference_config (dagDirname : String)
    (connections : String → Connection) :
    (buildDag (PARAMS_DEFINITION dagDirname)).presigned_bucket =
      "terraform-nu-db-pg-48baa6b7" ∧
    (buildDag (PARAMS_DEFINITION dagDirname)).presigned_key =
      "output_files" ++ "/" ++ "account_monthly_balance.csv" ∧
    (buildDag (PARAMS_DEFINITION dagDirname)).presigned_expires = 604800 ∧
    (generate_presigned_url connections (PARAMS_DEFINITION dagDirname)
      (buildDag (PARAMS_DEFINITION dagDirname)).presigned_bucket
      (buildDag (PARAMS_DEFINITION dagDirname)).presigned_key
      (buildDag (PARAMS_DEFINITION dagDirname)).presigned_expires).ClientMethod =
        "get_object" ∧
    (generate_presigned_url connections (PARAMS_DEFINITION dagDirname)
      (buildDag (PARAMS_DEFINITION dagDirname)).presigned_bucket
      (buildDag (PARAMS_DEFINITION dagDirname)).presigned_key
      (buildDag (PARAMS_DEFINITION dagDirname)).presigned_expires).bucket =
        "terraform-nu-db-pg-48baa6b7" ∧
    (generate_presigned_url connections (PARAMS_DEFINITION dagDirname)
      (buildDag (PARAMS_DEFINITION dagDirname)).presigned_bucket
      (buildDag (PARAMS_DEFINITION dagDirname)).presigned_key
      (buildDag (PARAMS_DEFINITION dagDirname)).presigned_expires).key =
        "output_files/account_monthly_balance.csv" ∧
    (generate_presigned_url connections (PARAMS_DEFINITION dagDirname)
      (buildDag (PARAMS_DEFINITION dagDirname)).presigned_bucket
      (buildDag (PARAMS_DEFINITION dagDirname)).presigned_key
      (buildDag (PARAMS_DEFINITION dagDirname)).presigned_expires).ExpiresIn =
        604800 :=
  ⟨rfl, rfl, rfl, rfl, rfl, rfl, rfl⟩

/-- Claim C4: the Notifier's message is exactly the fixed prefix, a
newline, then the URL verbatim. -/
theorem notifier_message_exact (url : String) :
    (notify_slack url).message =
      "✅ CSV file for monthly account balance is available at:" ++ "\n" ++ url := by
  simp [notify_slack]

/-- Counterexample to claim C5: with a connection whose extras carry region
`eu-west-1`, the S3 client that issues the signing request is created with
region `us-east-1`, not the region yielded by the connection — the claim
that the signed-URL request is made against the connection's region is
false. -/
theorem signing_region_not_from_connection :
    ¬ (generate_presigned_url (fun _ => euConn)
        (PARAMS_DEFINITION "/opt/airflow/dags")
        "terraform-nu-db-pg-48baa6b7"
        "output_files/account_monthly_balance.csv"
        604800).client.client_region_name = specConnectionRegion euConn := by
  decide

/-- Claim C5 as amended: the Link Generator's session takes access key,
secret and region from the named AWS connection (region defaulting to
`us-east-1` when the connection has none), but the S3 client that issues
the signing request is always created with region `us-east-1`, regardless
of the connection's region. -/
theorem credentials_from_connection (connections : String → Connection)
    (params : Params) (bucket_name object_key : String)
    (expires_in_sec : Nat) :
    (generate_presigned_url connections params bucket_name object_key
        expires_in_sec).client.session.aws_access_key_id =
      (connections (pyGet params "aws_conn_id")).login ∧
    (generate_presigned_url connections params bucket_name object_key
        expires_in_sec).client.session.aws_secret_access_key =
      (connections (pyGet params "aws_conn_id")).password ∧
    (generate_presigned_url connections params bucket_name object_key
        expires_in_sec).client.session.region_name =
      ((connections (pyGet params "aws_conn_id")).extra_dejson.lookup
        "region_name").getD "us-east-1" ∧
    (generate_presigned_url connections params bucket_name object_key
        expires_in_sec).client.client_region_name = "us-east-1" :=
  ⟨rfl, rfl, rfl, rfl⟩

/-- Claim C6: the workflow is not idempotent at the Notifier: one complete
run posts exactly one Slack message, and running the complete workflow
twice posts two, with no deduplication against earlier runs. -/
theorem notification_not_idempotent (connections : String → Connection)
    (params : Params) (sign : PresignedUrlRequest → String) :
    (historyAfterRuns connections params sign (fun _ => true) 1).length = 1 ∧
    (historyAfterRuns connections params sign (fun _ => true) 2).length = 2 :=
  ⟨rfl, rfl⟩

/-- Claim C7: every step is governed by the uniform DAG-level retry budget
of 3; no step overrides it. -/
theorem uniform_retry_budget (params : Params) (t : TaskId) :
    taskRetriesOverride t = none ∧
    (taskRetriesOverride t).getD (buildDag params).default_retries = 3 :=
  ⟨rfl, rfl⟩

/-- Claim C8: the run configuration is one fixed mapping: both SQL
operators carry the very same mapping as their `params` and use the same
warehouse connection id read from it, the Link Generator's arguments are
read from the same mapping, and no step of a run changes any configuration
value. -/
theorem run_configuration_fixed (dagDirname : String)
    (succeeds : TaskId → Bool) :
    (buildDag (PARAMS_DEFINITION dagDirname)).create_table_snowflake.params =
      PARAMS_DEFINITION dagDirname ∧
    (buildDag (PARAMS_DEFINITION dagDirname)).load_to_s3.params =
      PARAMS_DEFINITION dagDirname ∧
    (buildDag (PARAMS_DEFINITION dagDirname)).create_table_snowflake.conn_id =
      (buildDag (PARAMS_DEFINITION dagDirname)).load_to_s3.conn_id ∧
    (buildDag (PARAMS_DEFINITION dagDirname)).create_table_snowflake.conn_id =
      pyGet (PARAMS_DEFINITION dagDirname) "snowflake_conn_id" ∧
    (buildDag (PARAMS_DEFINITION dagDirname)).presigned_bucket =
      pyGet (PARAMS_DEFINITION dagDirname) "bucket_s3" ∧
    (buildDag (PARAMS_DEFINITION dagDirname)).presigned_key =
      pyGet (PARAMS_DEFINITION dagDirname) "path" ++ "/" ++
        pyGet (PARAMS_DEFINITION dagDirname) "filename" ∧
    paramsAfterRun succeeds (PARAMS_DEFINITION dagDirname) =
      PARAMS_DEFINITION dagDirname :=
  ⟨rfl, rfl, rfl, rfl, rfl, rfl,
   foldl_stepConfigEffect (runChain succeeds) (PARAMS_DEFINITION dagDirname)⟩

/-- Claim C9: when the AWS connection's extras have no `region_name`
entry, the boto3 session's region defaults to `us-east-1`; and whatever the
connection holds, the S3 client used to sign is always created with region
`us-east-1`. -/
theorem session_region_default (connections : String → Connection)
    (params : Params)
    (h : ((connections (pyGet params "aws_conn_id")).extra_dejson.lookup
      "region_name") = none) :
    (∀ (bucket_name object_key : String) (expires_in_sec : Nat),
      (generate_presigned_url connections params bucket_name object_key
        expires_in_sec).client.session.region_name = "us-east-1") ∧
    (∀ (cs : String → Connection) (ps : Params)
        (bucket_name object_key : String) (expires_in_sec : Nat),
      (generate_presigned_url cs ps bucket_name object_key
        expires_in_sec).client.client_region_name = "us-east-1") := by
  constructor
  · intro bucket_name object_key expires_in_sec
    simp [generate_presigned_url, h]
  · intro cs ps bucket_name object_key expires_in_sec
    rfl

/-- Witness for C9: a connection registry whose AWS connection has no
`region_name` extra satisfies the hypothesis, and both the session region
and the client region are `us-east-1` there. -/
theorem session_region_default_witness :
    ((((fun _ => bareConn) (pyGet (PARAMS_DEFINITION "/opt/airflow/dags")
        "aws_conn_id") : Connection).extra_dejson.lookup "region_name")
      = none) ∧
    (generate_presigned_url (fun _ => bareConn)
      (PARAMS_DEFINITION "/opt/airflow/dags") "terraform-nu-db-pg-48baa6b7"
      "output_files/account_monthly_balance.csv"
      604800).client.session.region_name = "us-east-1" ∧
    (generate_presigned_url (fun _ => bareConn)
      (PARAMS_DEFINITION "/opt/airflow/dags") "terraform-nu-db-pg-48baa6b7"
      "output_files/account_monthly_balance.csv"
      604800).client.client_region_name = "us-east-1" :=
  ⟨rfl,
   (session_region_default (fun _ => bareConn)
     (PARAMS_DEFINITION "/opt/airflow/dags") rfl).1
     "terraform-nu-db-pg-48baa6b7" "output_files/account_monthly_balance.csv"
     604800,
   (session_region_default (fun _ => bareConn)
     (PARAMS_DEFINITION "/opt/airflow/dags") rfl).2
     (fun _ => bareConn) (PARAMS_DEFINITION "/opt/airflow/dags")
     "terraform-nu-db-pg-48baa6b7" "output_files/account_monthly_balance.csv"
     604800⟩

/-- Claim C10: the chat-webhook connection name and posting username are
constants inside the Notifier — they are the same for every configuration
mapping the DAG is built with — and the run configuration holds no entry
for them, so changing it cannot override them. -/
theorem notifier_constants (params paramsOther : Params) (url : String)
    (dagDirname : String) :
    (notify_slack url).slack_webhook_conn_id = "slack_webhook_conn" ∧
    (notify_slack url).username = "airflow-bot" ∧
    (buildDag params).notify url = notify_slack url ∧
    (buildDag params).notify url = (buildDag paramsOther).notify url ∧
    (PARAMS_DEFINITION dagDirname).lookup "slack_webhook_conn_id" = none ∧
    (PARAMS_DEFINITION dagDirname).lookup "slack_webhook_conn" = none ∧
    (PARAMS_DEFINITION dagDirname).lookup "username" = none :=
  ⟨rfl, rfl, rfl, rfl, rfl, rfl, rfl⟩

end AccountMonthlyBalance
